import Mathlib

/-!
Verification of the movement-and-collision core: terrain grid (`Map`),
bodies (`Actor`), and the motion resolver (`Map.move`, `Actor.repel`).

The embedding follows `src/world/Map.ts` and the `Actor` source file.
JavaScript numbers are modelled as exact rationals (`ℚ`); the one place
where IEEE-754 behavior is observable (division by zero inside
`testLine` when `steps = 0`) is additionally modelled exactly, with
`JsNum := Option ℚ` where `none` stands for NaN.

The source imports `EPSILON` and `repulsionForce` from
`./physicalConstants`, a file that is not part of the sources given;
both are therefore taken as explicit parameters, constrained only as
the spec constrains them (see `EPSILON` and `sampleRepulsionForce`).
-/

/-- The point interface used by `testLine` (source: `IPointLike`). -/
structure Point where
  x : ℚ
  y : ℚ
deriving DecidableEq

/-- Bitmask flag 0x01 (source: `IS_SOLID`). -/
def IS_SOLID : ℕ := 0x01

/-- Bitmask flag 0x02 (source: `IS_WALKABLE`). -/
def IS_WALKABLE : ℕ := 0x02

/-- Bitmask flag 0x04 (source: `IS_POINT_WALKABLE`). -/
def IS_POINT_WALKABLE : ℕ := 0x04

/-- Bitmask flag 0x08 (source: `IS_FEARLESS`). -/
def IS_FEARLESS : ℕ := 0x08

/-- Bitmask flag 0x10 (source: `IS_WALLED`). -/
def IS_WALLED : ℕ := 0x10

/-- Bitmask flag 0x20 (source: `IS_PASSABLE`). -/
def IS_PASSABLE : ℕ := 0x20

/-- Bitmask flag 0x40 (source: `IS_DROPPABLE`). -/
def IS_DROPPABLE : ℕ := 0x40

/-- Ground types are numeric bitmasks, exactly as the TypeScript enum
`GroundType` (whose values are numbers). -/
abbrev GroundType := ℕ

/-- `GroundType.AIR = IS_DROPPABLE` (source enum). -/
def GroundType.AIR : GroundType := IS_DROPPABLE

/-- `GroundType.SOLID = IS_SOLID | IS_WALLED | IS_WALKABLE` (source enum). -/
def GroundType.SOLID : GroundType := IS_SOLID ||| IS_WALLED ||| IS_WALKABLE

/-- `GroundType.PASSABLE_SOLID = IS_WALKABLE | IS_PASSABLE` (source enum). -/
def GroundType.PASSABLE_SOLID : GroundType := IS_WALKABLE ||| IS_PASSABLE

/-- `GroundType.PASSABLE_RAMP = IS_WALKABLE | IS_PASSABLE` (source enum;
numerically identical to `PASSABLE_SOLID`). -/
def GroundType.PASSABLE_RAMP : GroundType := IS_WALKABLE ||| IS_PASSABLE

/-- `GroundType.DROPPABLE = IS_WALKABLE | IS_PASSABLE | IS_DROPPABLE` (source enum). -/
def GroundType.DROPPABLE : GroundType := IS_WALKABLE ||| IS_PASSABLE ||| IS_DROPPABLE

/-- `GroundType.POINT_PASSABLE = IS_POINT_WALKABLE | IS_DROPPABLE` (source enum). -/
def GroundType.POINT_PASSABLE : GroundType := IS_POINT_WALKABLE ||| IS_DROPPABLE

/-- `GroundType.SOLID_NO_FEAR = IS_SOLID | IS_FEARLESS | IS_WALKABLE | IS_WALLED`
(source enum). -/
def GroundType.SOLID_NO_FEAR : GroundType :=
  IS_SOLID ||| IS_FEARLESS ||| IS_WALKABLE ||| IS_WALLED

/-- `GroundType.DROPPABLE_NO_FEAR = IS_WALKABLE | IS_FEARLESS | IS_PASSABLE | IS_DROPPABLE`
(source enum). -/
def GroundType.DROPPABLE_NO_FEAR : GroundType :=
  IS_WALKABLE ||| IS_FEARLESS ||| IS_PASSABLE ||| IS_DROPPABLE

/-- A movable axis-aligned body (source: class `Actor`). The position is
`(x, y)` (sprite position, top-left origin), `size = (sizeX, sizeY)`,
`velocity = (vx, vy)`. `collideable` is a getter in the source (default
`true`, overridable by subclasses) and is modelled as a field. The
numeric `id` and the world/sprite references play no part in the
physics and are omitted. -/
structure Actor where
  x : ℚ
  y : ℚ
  sizeX : ℚ
  sizeY : ℚ
  vx : ℚ
  vy : ℚ
  weight : ℚ
  fallthrough : Option ℚ
  collideable : Bool
deriving DecidableEq

/-- `get top() { return this.y; }` -/
def Actor.top (a : Actor) : ℚ := a.y

/-- `get bottom() { return this.y + this.size.y; }` -/
def Actor.bottom (a : Actor) : ℚ := a.y + a.sizeY

/-- `get left() { return this.x; }` -/
def Actor.left (a : Actor) : ℚ := a.x

/-- `get right() { return this.x + this.size.x; }` -/
def Actor.right (a : Actor) : ℚ := a.x + a.sizeX

/-- `get horizontalCenter() { return this.x + this.size.x / 2; }` -/
def Actor.horizontalCenter (a : Actor) : ℚ := a.x + a.sizeX / 2

/-- `get verticalCenter() { return this.y + this.size.y / 2; }` -/
def Actor.verticalCenter (a : Actor) : ℚ := a.y + a.sizeY / 2

/-- The same actor carried to a new position; all other fields are kept.
Used to express the position mutations done inside `Map.move`. -/
def Actor.atPos (a : Actor) (px py : ℚ) : Actor := { a with x := px, y := py }

/-- `applyImpulse(x, y)` adds directly to the velocity (source: `Actor`). -/
def Actor.applyImpulse (a : Actor) (dx dy : ℚ) : Actor :=
  { a with vx := a.vx + dx, vy := a.vy + dy }

/-- The terrain grid (source: class `Map`): a width, a height, and the
row-major classification data decoded from the map image. -/
structure Map where
  mapWidth : ℕ
  mapHeight : ℕ
  mapData : List GroundType
deriving DecidableEq

/-- Number of loop iterations of `testLine`: the JS loop
`for (let i = 0; i <= steps; i++)` runs `floor(steps) + 1` times for
`steps ≥ 0` and zero times for negative `steps` (the in-repo callers
pass `2`, the default `1`, or a body width, which may be fractional). -/
def sampleCount (steps : ℚ) : ℕ := if steps < 0 then 0 else ⌊steps⌋.toNat + 1

/-- `Map.testLine(start, end, test, steps = 1)` (source), over exact
rationals: tests `test` at the points
`start + (end - start) * i / steps` for `i = 0, ..., steps`, returning
at the first success. `List.any` short-circuits exactly as the loop
does. Note that Lean division by zero yields `0`; the `steps = 0` case,
where JS instead produces NaN, is modelled faithfully by `testLineJs`
below. -/
def Map.testLine (s e : Point) (test : ℚ → ℚ → Bool) (steps : ℚ) : Bool :=
  (List.range (sampleCount steps)).any fun i =>
    test (s.x + (e.x - s.x) * (i : ℚ) / steps) (s.y + (e.y - s.y) * (i : ℚ) / steps)

/-- The `i`-th sample point of `testLine` (the formula inside the loop). -/
def lineSample (s e : Point) (steps : ℚ) (i : ℕ) : ℚ × ℚ :=
  (s.x + (e.x - s.x) * (i : ℚ) / steps, s.y + (e.y - s.y) * (i : ℚ) / steps)

/-- A JavaScript number that may be NaN (`none`). Only the behavior
actually reachable in `testLine` is needed: all inputs are finite, and
the sole NaN source is the division `0 / 0` when `steps = 0`. -/
abbrev JsNum := Option ℚ

/-- JS addition: NaN-propagating, exact on finite values. -/
def jsAdd (a b : JsNum) : JsNum :=
  match a, b with
  | some a, some b => some (a + b)
  | _, _ => none

/-- JS subtraction: NaN-propagating, exact on finite values. -/
def jsSub (a b : JsNum) : JsNum :=
  match a, b with
  | some a, some b => some (a - b)
  | _, _ => none

/-- JS multiplication: NaN-propagating, exact on finite values. -/
def jsMul (a b : JsNum) : JsNum :=
  match a, b with
  | some a, some b => some (a * b)
  | _, _ => none

/-- JS division: NaN-propagating, and any division by zero is mapped to
`none` (for the only division-by-zero reachable in `testLine`, the
numerator is `(end - start) * 0 = 0`, so the JS result is exactly
NaN = `0 / 0`; the infinite quotients `x / 0`, `x ≠ 0`, are unreachable
there and are conflated with NaN by this model). -/
def jsDiv (a b : JsNum) : JsNum :=
  match a, b with
  | some a, some b => if b = 0 then none else some (a / b)
  | _, _ => none

/-- `Map.testLine` with the IEEE-754 semantics of the sample expression
`start.x + (end.x - start.x) * i / steps` made explicit: when
`steps = 0` the loop body computes `(end - start) * 0 / 0`, which is
NaN in JavaScript, so the predicate is invoked on NaN coordinates. -/
def Map.testLineJs (s e : Point) (test : JsNum → JsNum → Bool) (steps : ℚ) : Bool :=
  (List.range (sampleCount steps)).any fun i =>
    test (jsAdd (some s.x) (jsDiv (jsMul (jsSub (some e.x) (some s.x)) (some (i : ℚ))) (some steps)))
         (jsAdd (some s.y) (jsDiv (jsMul (jsSub (some e.y) (some s.y)) (some (i : ℚ))) (some steps)))

/-- `Map.isSolid(type) { return (type & IS_SOLID) !== 0; }` -/
def Map.isSolid (t : GroundType) : Bool := decide (t &&& IS_SOLID ≠ 0)

/-- `Map.isWalkable(type) { return (type & IS_WALKABLE) !== 0; }` -/
def Map.isWalkable (t : GroundType) : Bool := decide (t &&& IS_WALKABLE ≠ 0)

/-- `Map.isPointWalkable(type) { return (type & IS_POINT_WALKABLE) !== 0; }` -/
def Map.isPointWalkable (t : GroundType) : Bool := decide (t &&& IS_POINT_WALKABLE ≠ 0)

/-- `Map.isFearless(type) { return (type & IS_FEARLESS) !== 0; }` -/
def Map.isFearless (t : GroundType) : Bool := decide (t &&& IS_FEARLESS ≠ 0)

/-- `Map.isWalled(type) { return (type & IS_WALLED) !== 0; }` -/
def Map.isWalled (t : GroundType) : Bool := decide (t &&& IS_WALLED ≠ 0)

/-- `Map.isPassable(type) { return (type & IS_PASSABLE) !== 0; }` -/
def Map.isPassable (t : GroundType) : Bool := decide (t &&& IS_PASSABLE ≠ 0)

/-- `Map.isDroppable(type) { return (type & IS_DROPPABLE) !== 0; }` -/
def Map.isDroppable (t : GroundType) : Bool := decide (t &&& IS_DROPPABLE ≠ 0)

/-- An RGB pixel of the map image (the constructor reads only the R, G,
B channels of each RGBA quadruple; alpha is ignored). -/
structure Pixel where
  r : ℕ
  g : ℕ
  b : ℕ
deriving DecidableEq

/-- The palette decoding of one pixel, exactly the if-chain of the `Map`
constructor: the eight recognized colors map to their ground types,
anything else is unrecognized (`none`), which the source turns into a
thrown `Error`. -/
def classify (p : Pixel) : Option GroundType :=
  if p.r = 0x00 ∧ p.g = 0x00 ∧ p.b = 0x00 then some GroundType.SOLID
  else if p.r = 0xFF ∧ p.g = 0xFF ∧ p.b = 0xFF then some GroundType.AIR
  else if p.r = 0xFF ∧ p.g = 0x00 ∧ p.b = 0x00 then some GroundType.PASSABLE_SOLID
  else if p.r = 0x00 ∧ p.g = 0xFF ∧ p.b = 0x00 then some GroundType.PASSABLE_RAMP
  else if p.r = 0xFF ∧ p.g = 0x00 ∧ p.b = 0xDC then some GroundType.DROPPABLE
  else if p.r = 0xFF ∧ p.g = 0xFF ∧ p.b = 0x00 then some GroundType.POINT_PASSABLE
  else if p.r = 0xAA ∧ p.g = 0xAA ∧ p.b = 0xAA then some GroundType.SOLID_NO_FEAR
  else if p.r = 0xFF ∧ p.g = 0x88 ∧ p.b = 0x99 then some GroundType.DROPPABLE_NO_FEAR
  else none

/-- The data carried by the `Error` thrown on an unrecognized pixel:
`"Invalid map data at " + (i % w) + ", " + floor(i / w) + " " + r + " " + g + " " + b`
names the pixel coordinate and the raw channel values. -/
structure MapError where
  px : ℕ
  py : ℕ
  r : ℕ
  g : ℕ
  b : ℕ
deriving DecidableEq

/-- The decoding loop of the `Map` constructor, from pixel index `i`
on: classifies each pixel in order and aborts with the error of the
first unrecognized pixel, exactly as the thrown `Error` aborts the
constructor. -/
def decodePixels (w : ℕ) : ℕ → List Pixel → Except MapError (List GroundType)
  | _, [] => Except.ok []
  | i, p :: rest =>
    match classify p with
    | some g => (decodePixels w (i + 1) rest).map fun l => g :: l
    | none => Except.error ⟨i % w, i / w, p.r, p.g, p.b⟩

/-- The `Map` constructor (source: `constructor(mapTexture, backgroundImage)`)
restricted to its terrain-decoding effect: the canvas/texture plumbing
is an external collaborator that yields the raw pixels; decoding either
produces the full grid or throws at the first unrecognized pixel,
producing no grid at all. -/
def Map.construct (w h : ℕ) (pixels : List Pixel) : Except MapError Map :=
  (decodePixels w 0 pixels).map fun d => ⟨w, h, d⟩

/-- `Map.getPixelData(x, y)` (source): floor both coordinates, answer
`SOLID` out of bounds, otherwise read the row-major cell. The source
indexes a `Uint8Array`; an out-of-range index would yield `undefined`,
which behaves as `0` in the bitmask tests, hence the `getD` default `0`. -/
def Map.getPixelData (m : Map) (qx qy : ℚ) : GroundType :=
  if ⌊qx⌋ < 0 ∨ ⌊qy⌋ < 0 ∨ (m.mapWidth : ℤ) ≤ ⌊qx⌋ ∨ (m.mapHeight : ℤ) ≤ ⌊qy⌋ then
    GroundType.SOLID
  else
    m.mapData.getD (⌊qy⌋.toNat * m.mapWidth + ⌊qx⌋.toNat) 0

/-- The stored classification of the integer cell `(i, j)` of a grid. -/
def Map.cell (m : Map) (i j : ℕ) : GroundType :=
  m.mapData.getD (j * m.mapWidth + i) 0

/-- `actorIsOnWalkableGround(actor, verticalOffset = 0)` (source): a
3-sample line probe across the bottom span `[left, right - EPSILON]`
for `IS_WALKABLE`, or a single point probe at the bottom center for
`IS_POINT_WALKABLE`. `ε` is the spec-modelled `EPSILON` parameter. -/
def Map.actorIsOnWalkableGround (m : Map) (ε : ℚ) (a : Actor) (verticalOffset : ℚ) : Bool :=
  Map.testLine ⟨a.left, a.bottom + verticalOffset⟩ ⟨a.right - ε, a.bottom + verticalOffset⟩
      (fun px py => Map.isWalkable (m.getPixelData px py)) 2 ||
    Map.isPointWalkable (m.getPixelData a.horizontalCenter (a.bottom + verticalOffset))

/-- `actorIsOnSolidGround(actor, verticalOffset = 0)` (source): a
3-sample line probe across the bottom span for `IS_SOLID`. -/
def Map.actorIsOnSolidGround (m : Map) (ε : ℚ) (a : Actor) (verticalOffset : ℚ) : Bool :=
  Map.testLine ⟨a.left, a.bottom + verticalOffset⟩ ⟨a.right - ε, a.bottom + verticalOffset⟩
    (fun px py => Map.isSolid (m.getPixelData px py)) 2

/-- `actorIsInPassable(actor)` (source): true inside the fallthrough
grace window (`|y - fallthrough| < 5`); otherwise a point probe for
`IS_POINT_WALKABLE` at bottom-center minus 2, or a line probe for
`IS_PASSABLE` across the bottom-minus-2 span with
`steps = right - left` (the body width, one sample per pixel). -/
def Map.actorIsInPassable (m : Map) (ε : ℚ) (a : Actor) : Bool :=
  (match a.fallthrough with
    | some f => decide (|a.y - f| < 5)
    | none => false) ||
  (Map.isPointWalkable (m.getPixelData a.horizontalCenter (a.bottom - 2)) ||
    Map.testLine ⟨a.left, a.bottom - 2⟩ ⟨a.right - ε, a.bottom - 2⟩
      (fun px py => Map.isPassable (m.getPixelData px py)) (a.right - a.left))

/-- `isGrounded(actor)` (source): the exact early-return chain —
moving upward is never grounded; not on walkable ground is not
grounded; on solid ground is grounded; inside a passable volume is not
grounded; otherwise grounded. -/
def Map.isGrounded (m : Map) (ε : ℚ) (a : Actor) : Bool :=
  if a.vy < 0 then false
  else if !(m.actorIsOnWalkableGround ε a 0) then false
  else if m.actorIsOnSolidGround ε a 0 then true
  else if m.actorIsInPassable ε a then false
  else true

/-- The least natural `n` with `n * n ≥ k`: `0` for `k = 0`, else
`Nat.sqrt (k - 1) + 1`. -/
def ceilSqrtNat (k : ℕ) : ℕ := if k = 0 then 0 else Nat.sqrt (k - 1) + 1

/-- `Math.ceil(Math.sqrt(q))`: for a nonnegative real `q`, `⌈√q⌉` is
the least natural `n` with `n * n ≥ q`, and since `n * n` is an
integer, that threshold is unchanged when `q` is rounded up to `⌈q⌉`;
this avoids an irrational intermediate value. `ceilSqrtQ_spec` below
proves this definition is exactly that least `n`. -/
def ceilSqrtQ (q : ℚ) : ℕ := ceilSqrtNat ⌈q⌉.toNat

/-- The mutable state of the `move` loop: the actor position and the
`movingX`, `movingY`, `collisions[0]`, `collisions[1]` locals. -/
structure MoveState where
  mx : ℚ
  my : ℚ
  movingX : Bool
  movingY : Bool
  collH : Bool
  collV : Bool
deriving DecidableEq

/-- The vertical block of the `move` loop body (source: `Map.move`,
`if (movingY) { ... }`): advance `y` by one sub-step; for downward
motion, resolve a ground collision by stopping vertical motion, setting
the vertical flag and snapping `y` to `floor(y - EPSILON)`; upward
motion resolves nothing. `a` carries the fields `move` never writes
(velocity, size, fallthrough, ...); the position it reads is the state
position. -/
def Map.moveStepY (m : Map) (ε : ℚ) (a : Actor) (mag : ℕ) (s : MoveState) : MoveState :=
  if s.movingY then
    let y1 := s.my + a.vy / (mag : ℚ)
    if a.vy < 0 then
      { s with my := y1 }
    else
      let cur := a.atPos s.mx y1
      if m.actorIsOnSolidGround ε cur (-ε) ||
          (m.actorIsOnWalkableGround ε cur (-ε) && !(m.actorIsInPassable ε cur)) then
        { s with my := ((⌊y1 - ε⌋ : ℤ) : ℚ), movingY := false, collV := true }
      else
        { s with my := y1 }
  else s

/-- The horizontal block of the `move` loop body (source: `Map.move`,
`if (movingX) { ... }`): advance `x` by one sub-step, resolve a wall
collision along the leading edge (probed with the `testLine` default
`steps = 1`, i.e. top and bottom samples only), snapping `x` to
`ceil(x)` when moving left and `floor(x - EPSILON)` when moving right;
then, when vertical motion has stopped, apply the 1-pixel slope
correction. -/
def Map.moveStepX (m : Map) (ε : ℚ) (a : Actor) (mag : ℕ) (s1 : MoveState) : MoveState :=
  if s1.movingX then
    let x1 := s1.mx + a.vx / (mag : ℚ)
    let cur := a.atPos x1 s1.my
    let s2 :=
      if a.vx < 0 then
        if Map.testLine ⟨cur.left, cur.top⟩ ⟨cur.left, cur.bottom - 1 - ε⟩
            (fun px py => Map.isWalled (m.getPixelData px py)) 1 then
          { s1 with mx := ((⌈x1⌉ : ℤ) : ℚ), movingX := false, collH := true }
        else { s1 with mx := x1 }
      else
        if Map.testLine ⟨cur.right - ε, cur.top⟩ ⟨cur.right - ε, cur.bottom - 1 - ε⟩
            (fun px py => Map.isWalled (m.getPixelData px py)) 1 then
          { s1 with mx := ((⌊x1 - ε⌋ : ℤ) : ℚ), movingX := false, collH := true }
        else { s1 with mx := x1 }
    if !s2.movingY then
      let cur2 := a.atPos s2.mx s2.my
      if m.actorIsOnWalkableGround ε cur2 (-1) then { s2 with my := s2.my - 1 }
      else if !(m.actorIsOnWalkableGround ε cur2 0) && m.actorIsOnWalkableGround ε cur2 1 then
        { s2 with my := s2.my + 1 }
      else s2
    else s2
  else s1

/-- One iteration of the `move` loop body: the vertical block, then the
horizontal block. -/
def Map.moveStep (m : Map) (ε : ℚ) (a : Actor) (mag : ℕ) (s : MoveState) : MoveState :=
  m.moveStepX ε a mag (m.moveStepY ε a mag s)

/-- The `move` loop: at most `mag` iterations, stopping as soon as both
`movingX` and `movingY` are false (the loop guard
`i < magnitude && (movingX || movingY)`). -/
def Map.moveLoop (m : Map) (ε : ℚ) (a : Actor) (mag : ℕ) : ℕ → MoveState → MoveState
  | 0, s => s
  | n + 1, s =>
    if s.movingX || s.movingY then m.moveLoop ε a mag n (m.moveStep ε a mag s) else s

/-- `Map.move(actor)` (source): sub-stepped integration with
`magnitude = ceil(sqrt(vx^2 + vy^2))` sub-steps; returns the moved
actor together with the `[horizontal, vertical]` collision flags. -/
def Map.move (m : Map) (ε : ℚ) (a : Actor) : Actor × Bool × Bool :=
  let mag := ceilSqrtQ (a.vx * a.vx + a.vy * a.vy)
  let s := m.moveLoop ε a mag mag ⟨a.x, a.y, decide (a.vx ≠ 0), decide (a.vy ≠ 0), false, false⟩
  (a.atPos s.mx s.my, s.collH, s.collV)

/-- `Actor.repel(other, damper = 8.5)` (source), with the external
`repulsionForce` collaborator passed in as `f`: returns the two actors
(velocities possibly adjusted) and the boolean result. -/
def Actor.repel (a : Actor) (f : ℚ → ℚ → ℚ) (other : Actor) (damper : ℚ) :
    Actor × Actor × Bool :=
  if !a.collideable then (a, other, false)
  else
    let dist := a.horizontalCenter - other.horizontalCenter
    if |dist| < (a.sizeX / 2 + other.sizeX / 2) * 0.85 then
      if !other.collideable then (a, other, true)
      else if |a.bottom - other.bottom| < 15 then
        let force := f dist damper
        let weightRatio := a.weight / other.weight
        if dist < 0 then
          ({ a with vx := a.vx - force / weightRatio * (if a.vx > 0 then 2 else 1) },
           { other with vx := other.vx + force * weightRatio * (if other.vx < 0 then 2 else 1) },
           true)
        else
          ({ a with vx := a.vx + force / weightRatio * (if a.vx < 0 then 2 else 1) },
           { other with vx := other.vx - force * weightRatio * (if other.vx > 0 then 2 else 1) },
           true)
      else (a, other, true)
    else (a, other, false)

/-- Modelled from the spec: the constant `EPSILON` is imported from
`./physicalConstants`, a file that is not among the given sources; the
spec describes it only as a named small constant used for epsilon-based
boundary nudging. All definitions above take it as an explicit
parameter `ε`, and the theorems below assume only that it is small
(`0 < ε < 1`, or less where stated). This value is the concrete sample
instance used by witnesses. -/
def EPSILON : ℚ := 1 / 1000

/-- Modelled from the spec: `repulsionForce(distance, damper)` is
imported from `./physicalConstants`, a file that is not among the given
sources; the spec gives only its contract — a positive scalar,
monotonically decreasing in `|distance|`. `Actor.repel` takes the force
function as an explicit parameter; this instance satisfies the contract
and is the concrete sample used by witnesses. -/
def sampleRepulsionForce (dist damper : ℚ) : ℚ := damper / (|dist| + 1)

/-- The grid of the example scenario of the spec (claim C1): 10 cells
wide, 1 cell tall, columns 0 to 4 AIR and columns 5 to 9 SOLID. -/
def c1Map : Map :=
  ⟨10, 1,
    [GroundType.AIR, GroundType.AIR, GroundType.AIR, GroundType.AIR, GroundType.AIR,
     GroundType.SOLID, GroundType.SOLID, GroundType.SOLID, GroundType.SOLID, GroundType.SOLID]⟩

/-- The body of the example scenario of the spec (claim C1): 2 by 2 at
position `(2, -3)` with velocity `(0, 5)`. -/
def c1Actor : Actor :=
  { x := 2, y := -3, sizeX := 2, sizeY := 2, vx := 0, vy := 5,
    weight := 1, fallthrough := none, collideable := true }

/-- A zero-size grid: every point query is out of bounds, hence SOLID.
Used by witnesses. -/
def emptyMap : Map := ⟨0, 0, []⟩

/-- A concrete resting body (zero velocity) used by witnesses. -/
def restingActor : Actor :=
  { x := 0, y := 0, sizeX := 1, sizeY := 1, vx := 0, vy := 0,
    weight := 1, fallthrough := none, collideable := true }

/-- A concrete upward-moving body (`vy = -1`) used by witnesses. -/
def risingActor : Actor := { restingActor with vy := -1 }

/-- A concrete collideable body used by the repulsion witnesses: width
2 centered at 1, bottom at 2. -/
def repelActorA : Actor :=
  { x := 0, y := 0, sizeX := 2, sizeY := 2, vx := 0, vy := 0,
    weight := 1, fallthrough := none, collideable := true }

/-- A second collideable body overlapping `repelActorA`: width 2
centered at 2, bottom at 2. -/
def repelActorB : Actor := { repelActorA with x := 1 }

/-- A non-collideable copy of `repelActorA`, used by witnesses. -/
def ghostActor : Actor := { repelActorA with collideable := false }

/-- A 2-by-1 pixel image whose second pixel matches no palette color,
used by witnesses. -/
def badPixels : List Pixel := [⟨0x00, 0x00, 0x00⟩, ⟨1, 2, 3⟩]

/-- `ceilSqrtQ q` is the least natural `n` with `q ≤ n * n`, which is
exactly `Math.ceil(Math.sqrt(q))` for every `q ≥ 0`. -/
theorem ceilSqrtQ_spec (q : ℚ) :
    q ≤ (ceilSqrtQ q : ℚ) * (ceilSqrtQ q : ℚ) ∧
      ∀ k : ℕ, k < ceilSqrtQ q → ¬ q ≤ (k : ℚ) * (k : ℚ) := by
  by_cases hq : ⌈q⌉.toNat = 0
  · have hle : q ≤ 0 := by
      have h1 : (⌈q⌉ : ℚ) ≤ 0 := by exact_mod_cast Int.toNat_eq_zero.mp hq
      exact le_trans (Int.le_ceil q) h1
    constructor
    · simp [ceilSqrtQ, ceilSqrtNat, hq]
      linarith
    · intro k hk
      simp [ceilSqrtQ, ceilSqrtNat, hq] at hk
  · have hpos : 0 < ⌈q⌉ := by
      rcases lt_or_le 0 ⌈q⌉ with h | h
      · exact h
      · exact absurd (Int.toNat_eq_zero.mpr h) hq
    have hcast : ((⌈q⌉.toNat : ℕ) : ℚ) = (⌈q⌉ : ℚ) := by
      exact_mod_cast Int.toNat_of_nonneg (le_of_lt hpos)
    set c := ⌈q⌉.toNat with hc
    have hc1 : 1 ≤ c := Nat.pos_of_ne_zero hq
    have hval : ceilSqrtQ q = Nat.sqrt (c - 1) + 1 := by
      simp [ceilSqrtQ, ceilSqrtNat, hq, hc]
    constructor
    · have h1 : c - 1 < (Nat.sqrt (c - 1) + 1) * (Nat.sqrt (c - 1) + 1) :=
        Nat.lt_succ_sqrt (c - 1)
      have h2 : c ≤ (Nat.sqrt (c - 1) + 1) * (Nat.sqrt (c - 1) + 1) := by omega
      have h3 : (c : ℚ) ≤ ((Nat.sqrt (c - 1) + 1 : ℕ) : ℚ) * ((Nat.sqrt (c - 1) + 1 : ℕ) : ℚ) := by
        exact_mod_cast h2
      rw [hval]
      push_cast at h3 ⊢
      have h4 : q ≤ (c : ℚ) := by rw [hcast]; exact Int.le_ceil q
      linarith
    · intro k hk
      rw [hval] at hk
      have h1 : k * k ≤ Nat.sqrt (c - 1) * Nat.sqrt (c - 1) :=
        Nat.mul_le_mul (by omega) (by omega)
      have h2 : k * k ≤ c - 1 := le_trans h1 (Nat.sqrt_le (c - 1))
      have h3 : ((k * k : ℕ) : ℚ) ≤ ((c - 1 : ℕ) : ℚ) := by exact_mod_cast h2
      have h4 : ((c - 1 : ℕ) : ℚ) = (c : ℚ) - 1 := by
        push_cast [Nat.cast_sub hc1]
        ring
      have h5 : (c : ℚ) - 1 < q := by
        have := Int.ceil_lt_add_one q
        rw [hcast]
        linarith
      push_cast at h3
      intro hcon
      nlinarith

/-- Evaluation rule for `ceilSqrtQ` at a known answer. -/
theorem ceilSqrtQ_eq_of (q : ℚ) (n : ℕ) (h1 : q ≤ (n : ℚ) * n)
    (h2 : ∀ k : ℕ, k < n → ¬ q ≤ (k : ℚ) * k) : ceilSqrtQ q = n := by
  rcases lt_trichotomy (ceilSqrtQ q) n with h | h | h
  · exact absurd (ceilSqrtQ_spec q).1 (h2 _ h)
  · exact h
  · exact absurd h1 ((ceilSqrtQ_spec q).2 n h)

/-- C3: for every grid and coordinates `(x, y)`, if the floored values
lie outside `[0, width) × [0, height)` then `getPixelData` returns
SOLID; for in-bounds coordinates it floors `x` and `y` to integer cell
indices and returns that cell of the stored classification data. -/
theorem c3_getPixelData_bounds (m : Map) (qx qy : ℚ) :
    ((⌊qx⌋ < 0 ∨ ⌊qy⌋ < 0 ∨ (m.mapWidth : ℤ) ≤ ⌊qx⌋ ∨ (m.mapHeight : ℤ) ≤ ⌊qy⌋) →
      m.getPixelData qx qy = GroundType.SOLID) ∧
    (0 ≤ ⌊qx⌋ → 0 ≤ ⌊qy⌋ → ⌊qx⌋ < (m.mapWidth : ℤ) → ⌊qy⌋ < (m.mapHeight : ℤ) →
      m.getPixelData qx qy = m.cell ⌊qx⌋.toNat ⌊qy⌋.toNat) := by
  constructor
  · intro h
    simp only [Map.getPixelData, if_pos h]
  · intro h1 h2 h3 h4
    have hn : ¬(⌊qx⌋ < 0 ∨ ⌊qy⌋ < 0 ∨ (m.mapWidth : ℤ) ≤ ⌊qx⌋ ∨ (m.mapHeight : ℤ) ≤ ⌊qy⌋) := by
      omega
    simp only [Map.getPixelData, if_neg hn, Map.cell]

/-- Witness for C3: on the example grid, the out-of-bounds point
`(-1, 0)` classifies SOLID, and the in-bounds point `(1/2, 1/2)` floors
to cell `(0, 0)` and returns its stored classification. -/
theorem c3_getPixelData_bounds_witness :
    ((⌊(-1 : ℚ)⌋ < 0 ∨ ⌊(0 : ℚ)⌋ < 0 ∨ (c1Map.mapWidth : ℤ) ≤ ⌊(-1 : ℚ)⌋ ∨
        (c1Map.mapHeight : ℤ) ≤ ⌊(0 : ℚ)⌋) ∧
      c1Map.getPixelData (-1) 0 = GroundType.SOLID) ∧
    ((0 ≤ ⌊(1/2 : ℚ)⌋ ∧ 0 ≤ ⌊(1/2 : ℚ)⌋ ∧ ⌊(1/2 : ℚ)⌋ < (c1Map.mapWidth : ℤ) ∧
        ⌊(1/2 : ℚ)⌋ < (c1Map.mapHeight : ℤ)) ∧
      c1Map.getPixelData (1/2) (1/2) = c1Map.cell ⌊(1/2 : ℚ)⌋.toNat ⌊(1/2 : ℚ)⌋.toNat) := by
  have c1w : c1Map.mapWidth = 10 := rfl
  have c1h : c1Map.mapHeight = 1 := rfl
  have hoob : ⌊(-1 : ℚ)⌋ < 0 ∨ ⌊(0 : ℚ)⌋ < 0 ∨ (c1Map.mapWidth : ℤ) ≤ ⌊(-1 : ℚ)⌋ ∨
      (c1Map.mapHeight : ℤ) ≤ ⌊(0 : ℚ)⌋ := by
    left
    norm_num
  have hx : (0 : ℤ) ≤ ⌊(1/2 : ℚ)⌋ := by norm_num
  have hxw : ⌊(1/2 : ℚ)⌋ < (c1Map.mapWidth : ℤ) := by rw [c1w]; norm_num
  have hxh : ⌊(1/2 : ℚ)⌋ < (c1Map.mapHeight : ℤ) := by rw [c1h]; norm_num
  exact ⟨⟨hoob, (c3_getPixelData_bounds c1Map (-1) 0).1 hoob⟩,
         ⟨⟨hx, hx, hxw, hxh⟩, (c3_getPixelData_bounds c1Map (1/2) (1/2)).2 hx hx hxw hxh⟩⟩

/-- The ground types behave as their bitmasks dictate: SOLID is solid,
walkable and walled. -/
theorem solid_flags :
    Map.isSolid GroundType.SOLID = true ∧ Map.isWalkable GroundType.SOLID = true ∧
      Map.isWalled GroundType.SOLID = true ∧ Map.isPassable GroundType.SOLID = false ∧
      Map.isPointWalkable GroundType.SOLID = false := by
  refine ⟨rfl, rfl, rfl, rfl, rfl⟩

/-- AIR carries only the droppable flag. -/
theorem air_flags :
    Map.isSolid GroundType.AIR = false ∧ Map.isWalkable GroundType.AIR = false ∧
      Map.isWalled GroundType.AIR = false ∧ Map.isPassable GroundType.AIR = false ∧
      Map.isPointWalkable GroundType.AIR = false ∧ Map.isDroppable GroundType.AIR = true := by
  refine ⟨rfl, rfl, rfl, rfl, rfl, rfl⟩

/-- Every point query on the zero-size grid is out of bounds, hence SOLID. -/
theorem emptyMap_getPixelData (qx qy : ℚ) :
    emptyMap.getPixelData qx qy = GroundType.SOLID := by
  simp only [Map.getPixelData]
  rw [if_pos]
  rcases lt_or_le ⌊qx⌋ 0 with h | h
  · exact Or.inl h
  · right; right; left
    simpa [emptyMap] using h

/-- On the zero-size grid every body rests on walkable ground (the
boundary SOLID is walkable). -/
theorem emptyMap_walkable (ε : ℚ) (a : Actor) (off : ℚ) :
    emptyMap.actorIsOnWalkableGround ε a off = true := by
  have h : ∀ px py : ℚ, Map.isWalkable (emptyMap.getPixelData px py) = true := by
    intro px py
    rw [emptyMap_getPixelData]
    decide
  simp only [Map.actorIsOnWalkableGround, Map.testLine, h]
  rfl

/-- On the zero-size grid every body rests on solid ground. -/
theorem emptyMap_solid (ε : ℚ) (a : Actor) (off : ℚ) :
    emptyMap.actorIsOnSolidGround ε a off = true := by
  have h : ∀ px py : ℚ, Map.isSolid (emptyMap.getPixelData px py) = true := by
    intro px py
    rw [emptyMap_getPixelData]
    decide
  simp only [Map.actorIsOnSolidGround, Map.testLine, h]
  rfl

/-- C10: `move` writes only the position; velocity, size, weight, the
fallthrough marker and the collideable flag of the returned actor are
the ones it was called with (the grid is immutable by construction:
`move` never writes `mapData`). -/
theorem c10_move_frame (m : Map) (ε : ℚ) (a : Actor) :
    (m.move ε a).1.vx = a.vx ∧ (m.move ε a).1.vy = a.vy ∧
      (m.move ε a).1.sizeX = a.sizeX ∧ (m.move ε a).1.sizeY = a.sizeY ∧
      (m.move ε a).1.weight = a.weight ∧ (m.move ε a).1.fallthrough = a.fallthrough ∧
      (m.move ε a).1.collideable = a.collideable := by
  simp [Map.move, Actor.atPos]

/-- The horizontal block never changes the vertical collision flag. -/
theorem moveStepX_collV (m : Map) (ε : ℚ) (a : Actor) (mag : ℕ) (s : MoveState) :
    (m.moveStepX ε a mag s).collV = s.collV := by
  simp only [Map.moveStepX]
  split_ifs <;> rfl

/-- The vertical block of a rising body (`vy < 0`) takes the no-ceiling
path and never changes the vertical collision flag. -/
theorem moveStepY_collV_of_rising (m : Map) (ε : ℚ) (a : Actor) (mag : ℕ) (s : MoveState)
    (hvy : a.vy < 0) : (m.moveStepY ε a mag s).collV = s.collV := by
  simp only [Map.moveStepY, if_pos hvy]
  split_ifs <;> rfl

/-- A sub-step of a rising body (`vy < 0`) never changes the vertical
collision flag. -/
theorem moveStep_collV_of_rising (m : Map) (ε : ℚ) (a : Actor) (mag : ℕ) (s : MoveState)
    (hvy : a.vy < 0) : (m.moveStep ε a mag s).collV = s.collV := by
  rw [Map.moveStep, moveStepX_collV, moveStepY_collV_of_rising m ε a mag s hvy]

/-- The whole `move` loop of a rising body never changes the vertical
collision flag. -/
theorem moveLoop_collV_of_rising (m : Map) (ε : ℚ) (a : Actor) (mag : ℕ)
    (hvy : a.vy < 0) : ∀ (n : ℕ) (s : MoveState), (m.moveLoop ε a mag n s).collV = s.collV := by
  intro n
  induction n with
  | zero => intro s; rfl
  | succ k ih =>
    intro s
    simp only [Map.moveLoop]
    split_ifs with h
    · rw [ih, moveStep_collV_of_rising m ε a mag s hvy]
    · rfl

/-- C8: for every body whose vertical velocity is negative at the start
of the call, `move` never sets the vertical collision flag (there is no
ceiling collision in this model), over every grid and epsilon. -/
theorem c8_move_no_ceiling (m : Map) (ε : ℚ) (a : Actor) (hvy : a.vy < 0) :
    (m.move ε a).2.2 = false := by
  simp only [Map.move]
  rw [moveLoop_collV_of_rising m ε a _ hvy]

/-- Witness for C8: a concrete rising body on a concrete grid. -/
theorem c8_move_no_ceiling_witness :
    risingActor.vy < 0 ∧ (emptyMap.move EPSILON risingActor).2.2 = false :=
  ⟨by norm_num [risingActor, restingActor],
   c8_move_no_ceiling emptyMap EPSILON risingActor (by norm_num [risingActor, restingActor])⟩

/-- C5: `isGrounded` is false for a body moving upward; otherwise false
when not resting on walkable terrain; otherwise true when resting on
fully solid terrain; otherwise false when currently inside a passable
volume; otherwise true. -/
theorem c5_isGrounded_cases (m : Map) (ε : ℚ) (a : Actor) :
    (a.vy < 0 → m.isGrounded ε a = false) ∧
    (0 ≤ a.vy → m.actorIsOnWalkableGround ε a 0 = false → m.isGrounded ε a = false) ∧
    (0 ≤ a.vy → m.actorIsOnWalkableGround ε a 0 = true →
      m.actorIsOnSolidGround ε a 0 = true → m.isGrounded ε a = true) ∧
    (0 ≤ a.vy → m.actorIsOnWalkableGround ε a 0 = true →
      m.actorIsOnSolidGround ε a 0 = false → m.actorIsInPassable ε a = true →
      m.isGrounded ε a = false) ∧
    (0 ≤ a.vy → m.actorIsOnWalkableGround ε a 0 = true →
      m.actorIsOnSolidGround ε a 0 = false → m.actorIsInPassable ε a = false →
      m.isGrounded ε a = true) := by
  refine ⟨?_, ?_, ?_, ?_, ?_⟩
  · intro h
    simp [Map.isGrounded, h]
  · intro h1 h2
    simp [Map.isGrounded, not_lt.mpr h1, h2]
  · intro h1 h2 h3
    simp [Map.isGrounded, not_lt.mpr h1, h2, h3]
  · intro h1 h2 h3 h4
    simp [Map.isGrounded, not_lt.mpr h1, h2, h3, h4]
  · intro h1 h2 h3 h4
    simp [Map.isGrounded, not_lt.mpr h1, h2, h3, h4]

/-- Witness for C5: a concrete body at rest on (boundary) solid ground
is grounded via the solid-ground case. -/
theorem c5_isGrounded_cases_witness :
    (0 ≤ restingActor.vy ∧ emptyMap.actorIsOnWalkableGround EPSILON restingActor 0 = true ∧
      emptyMap.actorIsOnSolidGround EPSILON restingActor 0 = true) ∧
    emptyMap.isGrounded EPSILON restingActor = true := by
  have h1 : 0 ≤ restingActor.vy := by norm_num [restingActor]
  have h2 := emptyMap_walkable EPSILON restingActor 0
  have h3 := emptyMap_solid EPSILON restingActor 0
  exact ⟨⟨h1, h2, h3⟩, (c5_isGrounded_cases emptyMap EPSILON restingActor).2.2.1 h1 h2 h3⟩

/-- A list `any` is exactly "the in-order first-match search succeeds". -/
theorem any_eq_find_isSome (l : List ℕ) (f : ℕ → Bool) :
    l.any f = (l.find? f).isSome := by
  induction l with
  | nil => rfl
  | cons a t ih =>
    cases hfa : f a <;> simp [List.any_cons, List.find?_cons, hfa, ih]

/-- For a natural number of steps, `testLine` runs `steps + 1` samples. -/
theorem sampleCount_natCast (n : ℕ) : sampleCount (n : ℚ) = n + 1 := by
  have h1 : ¬ ((n : ℚ) < 0) := not_lt.mpr (by positivity)
  simp [sampleCount, h1, Int.floor_natCast]

/-- C9: for `steps = N ≥ 1`, `testLine` samples the `N + 1` equally
spaced points `start + (end - start) * i / N`, `i = 0, ..., N` — the
first sample is exactly `start` and the last exactly `end` — in order
of increasing `i`, and its result is exactly whether the in-order
first-match search over those samples succeeds (it stops at the first
satisfying point and returns false when no sample satisfies the
predicate). -/
theorem c9_testLine_sampling (s e : Point) (p : ℚ → ℚ → Bool) (N : ℕ) (hN : 1 ≤ N) :
    lineSample s e (N : ℚ) 0 = (s.x, s.y) ∧
    lineSample s e (N : ℚ) N = (e.x, e.y) ∧
    Map.testLine s e p (N : ℚ) =
      ((List.range (N + 1)).find? fun i =>
        p (lineSample s e (N : ℚ) i).1 (lineSample s e (N : ℚ) i).2).isSome := by
  have hN0 : ((N : ℚ)) ≠ 0 := Nat.cast_ne_zero.mpr (by omega)
  refine ⟨?_, ?_, ?_⟩
  · simp [lineSample]
  · simp only [lineSample, Prod.mk.injEq]
    constructor <;> (rw [mul_div_assoc, div_self hN0, mul_one]; ring)
  · rw [Map.testLine, sampleCount_natCast, any_eq_find_isSome]
    rfl

/-- Witness for C9: one step from `(0, 0)` to `(2, 4)` with a concrete
predicate. -/
theorem c9_testLine_sampling_witness :
    1 ≤ 1 ∧
    (lineSample ⟨0, 0⟩ ⟨2, 4⟩ ((1 : ℕ) : ℚ) 0 = (Point.x ⟨0, 0⟩, Point.y ⟨0, 0⟩) ∧
     lineSample ⟨0, 0⟩ ⟨2, 4⟩ ((1 : ℕ) : ℚ) 1 = (Point.x ⟨2, 4⟩, Point.y ⟨2, 4⟩) ∧
     Map.testLine ⟨0, 0⟩ ⟨2, 4⟩ (fun qx _ => decide (1 ≤ qx)) ((1 : ℕ) : ℚ) =
       ((List.range (1 + 1)).find? fun i =>
         (fun qx _ => decide (1 ≤ qx)) (lineSample ⟨0, 0⟩ ⟨2, 4⟩ ((1 : ℕ) : ℚ) i).1
           (lineSample ⟨0, 0⟩ ⟨2, 4⟩ ((1 : ℕ) : ℚ) i).2).isSome) :=
  ⟨le_refl 1, c9_testLine_sampling ⟨0, 0⟩ ⟨2, 4⟩ (fun qx _ => decide (1 ≤ qx)) 1 (le_refl 1)⟩

/-- C7: `repel` returns true exactly when the caller is collideable and
the horizontal centers are closer than 0.85 of the combined
half-widths; and it leaves both velocities (both components) unchanged
unless additionally the other body is collideable and the bottoms
differ by less than 15. -/
theorem c7_repel_guard (f : ℚ → ℚ → ℚ) (a b : Actor) (damper : ℚ) :
    ((a.repel f b damper).2.2 = true ↔
      (a.collideable = true ∧
        |a.horizontalCenter - b.horizontalCenter| < (a.sizeX / 2 + b.sizeX / 2) * 0.85)) ∧
    (¬(a.collideable = true ∧
        |a.horizontalCenter - b.horizontalCenter| < (a.sizeX / 2 + b.sizeX / 2) * 0.85 ∧
        b.collideable = true ∧ |a.bottom - b.bottom| < 15) →
      (a.repel f b damper).1.vx = a.vx ∧ (a.repel f b damper).1.vy = a.vy ∧
        (a.repel f b damper).2.1.vx = b.vx ∧ (a.repel f b damper).2.1.vy = b.vy) := by
  by_cases h1 : a.collideable = true
  · by_cases h2 : |a.horizontalCenter - b.horizontalCenter| < (a.sizeX / 2 + b.sizeX / 2) * 0.85
    · by_cases h3 : b.collideable = true
      · by_cases h4 : |a.bottom - b.bottom| < 15
        · refine ⟨?_, fun hcon => absurd ⟨h1, h2, h3, h4⟩ hcon⟩
          unfold Actor.repel
          rw [if_neg (by simp [h1]), if_pos h2, if_neg (by simp [h3]), if_pos h4]
          split_ifs <;> simp [h1, h2]
        · refine ⟨?_, fun _ => ?_⟩ <;>
            · unfold Actor.repel
              rw [if_neg (by simp [h1]), if_pos h2, if_neg (by simp [h3]), if_neg h4]
              simp [h1, h2]
      · refine ⟨?_, fun _ => ?_⟩ <;>
          · unfold Actor.repel
            rw [if_neg (by simp [h1]), if_pos h2, if_pos (by simp [show b.collideable = false by simpa using h3])]
            simp [h1, h2]
    · refine ⟨?_, fun _ => ?_⟩ <;>
        · unfold Actor.repel
          rw [if_neg (by simp [h1]), if_neg h2]
          simp [h1, h2]
  · refine ⟨?_, fun _ => ?_⟩ <;>
      · unfold Actor.repel
        rw [if_pos (by simp [show a.collideable = false by simpa using h1])]
        simp [h1]

/-- Witness for C7: a non-collideable caller leaves every velocity
component of both bodies unchanged. -/
theorem c7_repel_guard_witness :
    ¬(ghostActor.collideable = true ∧
        |ghostActor.horizontalCenter - repelActorB.horizontalCenter| <
          (ghostActor.sizeX / 2 + repelActorB.sizeX / 2) * 0.85 ∧
        repelActorB.collideable = true ∧ |ghostActor.bottom - repelActorB.bottom| < 15) ∧
    ((ghostActor.repel sampleRepulsionForce repelActorB 8.5).1.vx = ghostActor.vx ∧
      (ghostActor.repel sampleRepulsionForce repelActorB 8.5).1.vy = ghostActor.vy ∧
      (ghostActor.repel sampleRepulsionForce repelActorB 8.5).2.1.vx = repelActorB.vx ∧
      (ghostActor.repel sampleRepulsionForce repelActorB 8.5).2.1.vy = repelActorB.vy) := by
  have hno : ¬(ghostActor.collideable = true ∧
      |ghostActor.horizontalCenter - repelActorB.horizontalCenter| <
        (ghostActor.sizeX / 2 + repelActorB.sizeX / 2) * 0.85 ∧
      repelActorB.collideable = true ∧ |ghostActor.bottom - repelActorB.bottom| < 15) := by
    intro h
    have hcol := h.1
    simp [ghostActor, repelActorA] at hcol
  exact ⟨hno, (c7_repel_guard sampleRepulsionForce ghostActor repelActorB 8.5).2 hno⟩

/-- C6: when `repel` applies a force (both bodies collideable, centers
closer than 0.85 of combined half-widths, bottoms within 15), and the
external `repulsionForce` returns a positive scalar (with positive
weights), the two horizontal velocities are adjusted in opposite
directions that push the bodies apart — the caller gets
`force * b.weight / a.weight`, the other body `force * a.weight / b.weight`
— and the adjustment of a body currently moving toward the other body
carries the factor 2 where the same body otherwise carries the factor 1. -/
theorem c6_repel_force (f : ℚ → ℚ → ℚ) (a b : Actor) (damper : ℚ)
    (hca : a.collideable = true) (hcb : b.collideable = true)
    (hclose : |a.horizontalCenter - b.horizontalCenter| < (a.sizeX / 2 + b.sizeX / 2) * 0.85)
    (hband : |a.bottom - b.bottom| < 15) (hwa : 0 < a.weight) (hwb : 0 < b.weight)
    (hf : 0 < f (a.horizontalCenter - b.horizontalCenter) damper) :
    (a.horizontalCenter - b.horizontalCenter < 0 →
      ((a.repel f b damper).1.vx =
          a.vx - f (a.horizontalCenter - b.horizontalCenter) damper * b.weight / a.weight *
            (if a.vx > 0 then 2 else 1) ∧
        (a.repel f b damper).2.1.vx =
          b.vx + f (a.horizontalCenter - b.horizontalCenter) damper * a.weight / b.weight *
            (if b.vx < 0 then 2 else 1) ∧
        (a.repel f b damper).1.vx < a.vx ∧ b.vx < (a.repel f b damper).2.1.vx)) ∧
    (¬(a.horizontalCenter - b.horizontalCenter < 0) →
      ((a.repel f b damper).1.vx =
          a.vx + f (a.horizontalCenter - b.horizontalCenter) damper * b.weight / a.weight *
            (if a.vx < 0 then 2 else 1) ∧
        (a.repel f b damper).2.1.vx =
          b.vx - f (a.horizontalCenter - b.horizontalCenter) damper * a.weight / b.weight *
            (if b.vx > 0 then 2 else 1) ∧
        a.vx < (a.repel f b damper).1.vx ∧ (a.repel f b damper).2.1.vx < b.vx)) := by
  have hratio : 0 < a.weight / b.weight := div_pos hwa hwb
  constructor
  · intro hneg
    have hrepel : a.repel f b damper =
        ({ a with vx := a.vx - f (a.horizontalCenter - b.horizontalCenter) damper /
            (a.weight / b.weight) * (if a.vx > 0 then 2 else 1) },
         { b with vx := b.vx + f (a.horizontalCenter - b.horizontalCenter) damper *
            (a.weight / b.weight) * (if b.vx < 0 then 2 else 1) }, true) := by
      unfold Actor.repel
      rw [if_neg (by simp [hca]), if_pos hclose, if_neg (by simp [hcb]), if_pos hband,
        if_pos hneg]
    have hA : (a.repel f b damper).1.vx =
        a.vx - f (a.horizontalCenter - b.horizontalCenter) damper / (a.weight / b.weight) *
          (if a.vx > 0 then 2 else 1) := by rw [hrepel]
    have hB : (a.repel f b damper).2.1.vx =
        b.vx + f (a.horizontalCenter - b.horizontalCenter) damper * (a.weight / b.weight) *
          (if b.vx < 0 then 2 else 1) := by rw [hrepel]
    have hfacA : (0 : ℚ) < (if a.vx > 0 then (2 : ℚ) else 1) := by split_ifs <;> norm_num
    have hfacB : (0 : ℚ) < (if b.vx < 0 then (2 : ℚ) else 1) := by split_ifs <;> norm_num
    refine ⟨by rw [hA, div_div_eq_mul_div], by rw [hB, mul_div_assoc], ?_, ?_⟩
    · rw [hA]
      have hp : 0 < f (a.horizontalCenter - b.horizontalCenter) damper / (a.weight / b.weight) *
          (if a.vx > 0 then 2 else 1) := mul_pos (div_pos hf hratio) hfacA
      linarith
    · rw [hB]
      have hp : 0 < f (a.horizontalCenter - b.horizontalCenter) damper * (a.weight / b.weight) *
          (if b.vx < 0 then 2 else 1) := mul_pos (mul_pos hf hratio) hfacB
      linarith
  · intro hpos
    have hrepel : a.repel f b damper =
        ({ a with vx := a.vx + f (a.horizontalCenter - b.horizontalCenter) damper /
            (a.weight / b.weight) * (if a.vx < 0 then 2 else 1) },
         { b with vx := b.vx - f (a.horizontalCenter - b.horizontalCenter) damper *
            (a.weight / b.weight) * (if b.vx > 0 then 2 else 1) }, true) := by
      unfold Actor.repel
      rw [if_neg (by simp [hca]), if_pos hclose, if_neg (by simp [hcb]), if_pos hband,
        if_neg hpos]
    have hA : (a.repel f b damper).1.vx =
        a.vx + f (a.horizontalCenter - b.horizontalCenter) damper / (a.weight / b.weight) *
          (if a.vx < 0 then 2 else 1) := by rw [hrepel]
    have hB : (a.repel f b damper).2.1.vx =
        b.vx - f (a.horizontalCenter - b.horizontalCenter) damper * (a.weight / b.weight) *
          (if b.vx > 0 then 2 else 1) := by rw [hrepel]
    have hfacA : (0 : ℚ) < (if a.vx < 0 then (2 : ℚ) else 1) := by split_ifs <;> norm_num
    have hfacB : (0 : ℚ) < (if b.vx > 0 then (2 : ℚ) else 1) := by split_ifs <;> norm_num
    refine ⟨by rw [hA, div_div_eq_mul_div], by rw [hB, mul_div_assoc], ?_, ?_⟩
    · rw [hA]
      have hp : 0 < f (a.horizontalCenter - b.horizontalCenter) damper / (a.weight / b.weight) *
          (if a.vx < 0 then 2 else 1) := mul_pos (div_pos hf hratio) hfacA
      linarith
    · rw [hB]
      have hp : 0 < f (a.horizontalCenter - b.horizontalCenter) damper * (a.weight / b.weight) *
          (if b.vx > 0 then 2 else 1) := mul_pos (mul_pos hf hratio) hfacB
      linarith

/-- Witness for C6: two overlapping unit-weight bodies in the same
vertical band, with the sample force function, are pushed apart. -/
theorem c6_repel_force_witness :
    (repelActorA.collideable = true ∧ repelActorB.collideable = true ∧
      |repelActorA.horizontalCenter - repelActorB.horizontalCenter| <
        (repelActorA.sizeX / 2 + repelActorB.sizeX / 2) * 0.85 ∧
      |repelActorA.bottom - repelActorB.bottom| < 15 ∧
      0 < repelActorA.weight ∧ 0 < repelActorB.weight ∧
      0 < sampleRepulsionForce (repelActorA.horizontalCenter - repelActorB.horizontalCenter)
        8.5 ∧
      repelActorA.horizontalCenter - repelActorB.horizontalCenter < 0) ∧
    ((repelActorA.repel sampleRepulsionForce repelActorB 8.5).1.vx < repelActorA.vx ∧
      repelActorB.vx < (repelActorA.repel sampleRepulsionForce repelActorB 8.5).2.1.vx) := by
  have hdist : repelActorA.horizontalCenter - repelActorB.horizontalCenter = -1 := by
    norm_num [Actor.horizontalCenter, repelActorA, repelActorB]
  have h1 : repelActorA.collideable = true := rfl
  have h2 : repelActorB.collideable = true := rfl
  have h3 : |repelActorA.horizontalCenter - repelActorB.horizontalCenter| <
      (repelActorA.sizeX / 2 + repelActorB.sizeX / 2) * 0.85 := by
    rw [hdist]
    norm_num [abs_neg, abs_one, repelActorA, repelActorB]
  have h4 : |repelActorA.bottom - repelActorB.bottom| < 15 := by
    norm_num [Actor.bottom, repelActorA, repelActorB]
  have h5 : (0 : ℚ) < repelActorA.weight := by norm_num [repelActorA]
  have h6 : (0 : ℚ) < repelActorB.weight := by norm_num [repelActorA, repelActorB]
  have h7 : 0 < sampleRepulsionForce
      (repelActorA.horizontalCenter - repelActorB.horizontalCenter) 8.5 := by
    rw [hdist]
    norm_num [sampleRepulsionForce, abs_neg, abs_one]
  have h8 : repelActorA.horizontalCenter - repelActorB.horizontalCenter < 0 := by
    rw [hdist]; norm_num
  exact ⟨⟨h1, h2, h3, h4, h5, h6, h7, h8⟩,
    ((c6_repel_force sampleRepulsionForce repelActorA repelActorB 8.5
      h1 h2 h3 h4 h5 h6 h7).1 h8).2.2⟩

/-- When every pixel is recognized, the decode loop produces the full
classification list in pixel order. -/
theorem decodePixels_ok_of_all_some (w : ℕ) :
    ∀ (i : ℕ) (ps : List Pixel), (∀ p ∈ ps, (classify p).isSome) →
      decodePixels w i ps = Except.ok (ps.map fun p => (classify p).getD 0) := by
  intro i ps
  induction ps generalizing i with
  | nil => intro _; rfl
  | cons p t ih =>
    intro hall
    have hp : (classify p).isSome := hall p (List.mem_cons_self p t)
    obtain ⟨g, hg⟩ := Option.isSome_iff_exists.mp hp
    have ht : ∀ q ∈ t, (classify q).isSome := fun q hq => hall q (List.mem_cons_of_mem p hq)
    simp [decodePixels, hg, ih (i + 1) ht, Except.map]

/-- A successful decode means every pixel was recognized. -/
theorem decodePixels_ok_all_some (w : ℕ) :
    ∀ (i : ℕ) (ps : List Pixel) (l : List GroundType),
      decodePixels w i ps = Except.ok l → ∀ p ∈ ps, (classify p).isSome := by
  intro i ps
  induction ps generalizing i with
  | nil => intro l _ p hp; cases hp
  | cons p t ih =>
    intro l hok q hq
    cases hc : classify p with
    | none => simp [decodePixels, hc] at hok
    | some g =>
      rcases List.mem_cons.mp hq with rfl | hq
      · simp [hc]
      · simp only [decodePixels, hc] at hok
        cases hd : decodePixels w (i + 1) t with
        | error e => rw [hd] at hok; simp [Except.map] at hok
        | ok l2 => exact ih (i + 1) l2 hd q hq

/-- A failed decode means some pixel was unrecognized. -/
theorem decodePixels_error_some_none (w : ℕ) :
    ∀ (i : ℕ) (ps : List Pixel) (e : MapError),
      decodePixels w i ps = Except.error e → ∃ p ∈ ps, classify p = none := by
  intro i ps
  induction ps generalizing i with
  | nil => intro e he; simp [decodePixels] at he
  | cons p t ih =>
    intro e he
    cases hc : classify p with
    | none => exact ⟨p, List.mem_cons_self p t, hc⟩
    | some g =>
      simp only [decodePixels, hc] at he
      cases hd : decodePixels w (i + 1) t with
      | error e2 =>
        obtain ⟨q, hq, hqn⟩ := ih (i + 1) e2 hd
        exact ⟨q, List.mem_cons_of_mem p hq, hqn⟩
      | ok l2 => rw [hd] at he; simp [Except.map] at he

/-- The decode loop aborts at the first unrecognized pixel with that
pixel's coordinate (index modulo width, index over width) and raw
channel values. -/
theorem decodePixels_error_at_first (w : ℕ) :
    ∀ (ps : List Pixel) (i k : ℕ) (hk : k < ps.length),
      classify (ps.get ⟨k, hk⟩) = none →
      (∀ j (hj : j < k), (classify (ps.get ⟨j, lt_trans hj hk⟩)).isSome) →
      decodePixels w i ps =
        Except.error ⟨(i + k) % w, (i + k) / w, (ps.get ⟨k, hk⟩).r, (ps.get ⟨k, hk⟩).g,
          (ps.get ⟨k, hk⟩).b⟩ := by
  intro ps
  induction ps with
  | nil => intro i k hk; cases hk
  | cons p t ih =>
    intro i k hk hnone hbefore
    cases k with
    | zero =>
      simp only [List.get] at hnone
      simp [decodePixels, hnone]
    | succ k2 =>
      have hp : (classify p).isSome := by
        have := hbefore 0 (Nat.succ_pos k2)
        simpa using this
      obtain ⟨g, hg⟩ := Option.isSome_iff_exists.mp hp
      have hk2 : k2 < t.length := Nat.lt_of_succ_lt_succ hk
      have hnone2 : classify (t.get ⟨k2, hk2⟩) = none := by simpa using hnone
      have hbefore2 : ∀ j (hj : j < k2), (classify (t.get ⟨j, lt_trans hj hk2⟩)).isSome := by
        intro j hj
        have := hbefore (j + 1) (Nat.succ_lt_succ hj)
        simpa using this
      have := ih (i + 1) k2 hk2 hnone2 hbefore2
      simp only [decodePixels, hg, this]
      have harith : i + 1 + k2 = i + (k2 + 1) := by omega
      simp [Except.map, harith]

/-- Reading back the decoded list at a valid index yields the decoded
classification of the pixel at that index. -/
theorem map_getD_classify : ∀ (ps : List Pixel) (k : ℕ) (hk : k < ps.length),
    (ps.map fun p => (classify p).getD 0).getD k 0 = (classify (ps.get ⟨k, hk⟩)).getD 0 := by
  intro ps
  induction ps with
  | nil => intro k hk; cases hk
  | cons p t ih =>
    intro k hk
    cases k with
    | zero => rfl
    | succ k2 => exact ih k2 (Nat.lt_of_succ_lt_succ hk)

/-- C4: grid construction decodes each of the eight palette colors to
exactly its documented classification; it succeeds (producing the full
grid, with every pixel classified in order) exactly when every pixel
matches the palette, and otherwise fails with the error naming the
first offending pixel's coordinate and raw channel values, producing no
grid at all. -/
theorem c4_construct_palette (w h : ℕ) (pixels : List Pixel) :
    (classify ⟨0x00, 0x00, 0x00⟩ = some GroundType.SOLID ∧
      classify ⟨0xFF, 0xFF, 0xFF⟩ = some GroundType.AIR ∧
      classify ⟨0xFF, 0x00, 0x00⟩ = some GroundType.PASSABLE_SOLID ∧
      classify ⟨0x00, 0xFF, 0x00⟩ = some GroundType.PASSABLE_RAMP ∧
      classify ⟨0xFF, 0x00, 0xDC⟩ = some GroundType.DROPPABLE ∧
      classify ⟨0xFF, 0xFF, 0x00⟩ = some GroundType.POINT_PASSABLE ∧
      classify ⟨0xAA, 0xAA, 0xAA⟩ = some GroundType.SOLID_NO_FEAR ∧
      classify ⟨0xFF, 0x88, 0x99⟩ = some GroundType.DROPPABLE_NO_FEAR) ∧
    ((∃ e, Map.construct w h pixels = Except.error e) ↔ ∃ p ∈ pixels, classify p = none) ∧
    (∀ g : Map, Map.construct w h pixels = Except.ok g →
      g.mapWidth = w ∧ g.mapHeight = h ∧ g.mapData.length = pixels.length ∧
      ∀ k (hk : k < pixels.length),
        classify (pixels.get ⟨k, hk⟩) = some (g.mapData.getD k 0)) ∧
    (∀ k (hk : k < pixels.length), classify (pixels.get ⟨k, hk⟩) = none →
      (∀ j (hj : j < k), (classify (pixels.get ⟨j, lt_trans hj hk⟩)).isSome) →
      Map.construct w h pixels =
        Except.error ⟨k % w, k / w, (pixels.get ⟨k, hk⟩).r, (pixels.get ⟨k, hk⟩).g,
          (pixels.get ⟨k, hk⟩).b⟩) := by
  refine ⟨by decide, ?_, ?_, ?_⟩
  · constructor
    · rintro ⟨e, he⟩
      unfold Map.construct at he
      cases hd : decodePixels w 0 pixels with
      | error e2 => exact decodePixels_error_some_none w 0 pixels e2 hd
      | ok l => rw [hd] at he; simp [Except.map] at he
    · rintro ⟨p, hp, hpn⟩
      cases hd : Map.construct w h pixels with
      | error e => exact ⟨e, rfl⟩
      | ok g =>
        unfold Map.construct at hd
        cases hd2 : decodePixels w 0 pixels with
        | error e2 => rw [hd2] at hd; simp [Except.map] at hd
        | ok l =>
          have := decodePixels_ok_all_some w 0 pixels l hd2 p hp
          rw [hpn] at this
          cases this
  · intro g hg
    unfold Map.construct at hg
    cases hd : decodePixels w 0 pixels with
    | error e2 => rw [hd] at hg; simp [Except.map] at hg
    | ok l =>
      rw [hd] at hg
      simp only [Except.map, Except.ok.injEq] at hg
      have hall : ∀ p ∈ pixels, (classify p).isSome :=
        decodePixels_ok_all_some w 0 pixels l hd
      have hmap := decodePixels_ok_of_all_some w 0 pixels hall
      rw [hd] at hmap
      have hl : l = pixels.map fun p => (classify p).getD 0 := by
        simpa using hmap
      subst hg
      refine ⟨rfl, rfl, by simp [hl], ?_⟩
      intro k hk
      have hsome := hall (pixels.get ⟨k, hk⟩) (pixels.get_mem k hk)
      obtain ⟨gt, hgt⟩ := Option.isSome_iff_exists.mp hsome
      have hdata : (Map.mk w h l).mapData.getD k 0 = gt := by
        show l.getD k 0 = gt
        rw [hl, map_getD_classify pixels k hk, hgt]
        rfl
      rw [hdata, hgt]
  · intro k hk hnone hbefore
    have := decodePixels_error_at_first w pixels 0 k hk hnone hbefore
    unfold Map.construct
    rw [this]
    simp [Except.map]

/-- Witness for C4: decoding a 2-by-1 image whose second pixel is the
unrecognized color (1, 2, 3) aborts with the error naming pixel
coordinate (1, 0) and channels 1, 2, 3. -/
theorem c4_construct_palette_witness :
    (1 < badPixels.length ∧ classify (badPixels.get ⟨1, by decide⟩) = none) ∧
    Map.construct 2 1 badPixels = Except.error ⟨1, 0, 1, 2, 3⟩ := by
  have hk : 1 < badPixels.length := by decide
  have hnone : classify (badPixels.get ⟨1, hk⟩) = none := by
    show classify (badPixels.get ⟨1, by decide⟩) = none
    decide
  have hbefore : ∀ j (hj : j < 1), (classify (badPixels.get ⟨j, lt_trans hj hk⟩)).isSome := by
    intro j hj
    have hj0 : j = 0 := by omega
    subst hj0
    show (classify (badPixels.get ⟨0, by decide⟩)).isSome = true
    decide
  have hres := (c4_construct_palette 2 1 badPixels).2.2.2 1 hk hnone hbefore
  refine ⟨⟨hk, hnone⟩, ?_⟩
  rw [hres]
  rfl

/-- C2 (showing the claim fails on the code): with `steps = 0`,
`testLine` evaluates the predicate exactly once, but the sample
expression divides `(end - start) * 0` by `steps = 0`, which in
JavaScript is NaN: the predicate sees NaN in both coordinates — not
the start point `(1, 2)` — so a predicate looking for the start point
answers false. -/
theorem c2_testLine_zero_steps_nan :
    Map.testLineJs ⟨1, 2⟩ ⟨3, 4⟩ (fun qx qy => decide (qx = none) && decide (qy = none)) 0 =
      true ∧
    Map.testLineJs ⟨1, 2⟩ ⟨3, 4⟩ (fun qx qy => decide (qx = some 1) || decide (qy = some 2)) 0 =
      false := by
  constructor <;> decide

/-- The sub-step count of the C1 scenario: `ceil(sqrt(0 + 25)) = 5`. -/
theorem c1_magnitude :
    ceilSqrtQ (c1Actor.vx * c1Actor.vx + c1Actor.vy * c1Actor.vy) = 5 := by
  have hv : c1Actor.vx * c1Actor.vx + c1Actor.vy * c1Actor.vy = 25 := by
    norm_num [c1Actor]
  rw [hv]
  apply ceilSqrtQ_eq_of
  · norm_num
  · intro k hk
    interval_cases k <;> norm_num

/-- In the C1 scenario, the solid-ground probe of a body whose bottom
has just reached the top edge of the grid samples at `y = -ε`, which is
out of bounds above the grid and therefore SOLID. -/
theorem c1_solid_probe (ε : ℚ) (h0 : 0 < ε) (h1 : ε < 1) :
    c1Map.actorIsOnSolidGround ε (c1Actor.atPos 2 (-2)) (-ε) = true := by
  have hfy : ⌊(-ε : ℚ)⌋ = -1 := by
    rw [Int.floor_eq_iff]
    constructor
    · push_cast
      linarith
    · push_cast
      linarith
  have hpix : ∀ px : ℚ, Map.isSolid (c1Map.getPixelData px (-ε)) = true := by
    intro px
    unfold Map.getPixelData
    rw [if_pos (Or.inr (Or.inl (by rw [hfy]; norm_num)))]
    rfl
  unfold Map.actorIsOnSolidGround
  have hb : Actor.bottom (c1Actor.atPos 2 (-2)) + -ε = -ε := by
    norm_num [Actor.bottom, Actor.atPos, c1Actor]
  rw [hb]
  unfold Map.testLine
  simp only [sub_self, zero_mul, zero_div, add_zero, hpix]
  rfl

/-- The first sub-step of the C1 scenario: the body advances one unit
down (bottom reaches 0), the probe at `-ε` hits the out-of-bounds
SOLID above the grid, vertical motion stops with the flag set, and `y`
snaps to `floor(-2 - ε) = -3`. -/
theorem c1_stepY (ε : ℚ) (h0 : 0 < ε) (h1 : ε < 1) :
    c1Map.moveStepY ε c1Actor 5 ⟨2, -3, false, true, false, false⟩ =
      ⟨2, -3, false, false, false, true⟩ := by
  have hy1 : (-3 : ℚ) + c1Actor.vy / ((5 : ℕ) : ℚ) = -2 := by norm_num [c1Actor]
  have hvy : ¬(c1Actor.vy < 0) := by norm_num [c1Actor]
  have hfloor : (⌊(-2 : ℚ) - ε⌋ : ℤ) = -3 := by
    rw [Int.floor_eq_iff]
    constructor
    · push_cast
      linarith
    · push_cast
      linarith
  unfold Map.moveStepY
  simp only [hy1, if_neg hvy, c1_solid_probe ε h0 h1, Bool.true_or, if_true, hfloor]
  norm_num

/-- One full sub-step of the C1 scenario (the horizontal block is a
no-op since the body is not moving horizontally). -/
theorem c1_step (ε : ℚ) (h0 : 0 < ε) (h1 : ε < 1) :
    c1Map.moveStep ε c1Actor 5 ⟨2, -3, false, true, false, false⟩ =
      ⟨2, -3, false, false, false, true⟩ := by
  unfold Map.moveStep
  rw [c1_stepY ε h0 h1]
  rfl

/-- The whole C1 move loop: the first sub-step stops vertical motion
and the loop guard then fails. -/
theorem c1_loop (ε : ℚ) (h0 : 0 < ε) (h1 : ε < 1) :
    c1Map.moveLoop ε c1Actor 5 5 ⟨2, -3, false, true, false, false⟩ =
      ⟨2, -3, false, false, false, true⟩ := by
  have hstep := c1_step ε h0 h1
  rw [show (5 : ℕ) = 4 + 1 from rfl] at hstep ⊢
  simp only [Map.moveLoop]
  rw [hstep]
  rfl

/-- Full evaluation of `move` in the C1 scenario, for every admissible
epsilon. -/
theorem c1_move_eval (ε : ℚ) (h0 : 0 < ε) (h1 : ε < 1) :
    c1Map.move ε c1Actor = (c1Actor.atPos 2 (-3), false, true) := by
  have hs0 : (⟨c1Actor.x, c1Actor.y, decide (c1Actor.vx ≠ 0), decide (c1Actor.vy ≠ 0),
      false, false⟩ : MoveState) = ⟨2, -3, false, true, false, false⟩ := rfl
  simp only [Map.move]
  rw [c1_magnitude, hs0, c1_loop ε h0 h1]

/-- C1 (amended): in the 10-by-1 grid with columns 0 to 4 AIR and 5 to
9 SOLID, a 2-by-2 body at `(2, -3)` with velocity `(0, 5)` gets the
vertical collision flag from a single `move` call and never crosses the
top of row 0 — but it does not land with its bottom at 0: because
out-of-bounds points are SOLID, the downward probe at `-ε` already hits
the boundary region above the grid during the first sub-step, so `y`
snaps to `floor(-2 - ε) = -3` and the body ends with bottom `-1` (one
pixel above the top edge of the grid), its position unchanged, with no
horizontal collision — for every epsilon in `(0, 1)`. -/
theorem c1_move_scenario (ε : ℚ) (h0 : 0 < ε) (h1 : ε < 1) :
    (c1Map.move ε c1Actor).2.2 = true ∧
    (c1Map.move ε c1Actor).1.bottom = -1 ∧
    (c1Map.move ε c1Actor).1.y = c1Actor.y ∧
    (c1Map.move ε c1Actor).2.1 = false := by
  rw [c1_move_eval ε h0 h1]
  refine ⟨rfl, ?_, rfl, rfl⟩
  norm_num [Actor.bottom, Actor.atPos, c1Actor]

/-- Counterexample for C1 as stated: with the concrete sample epsilon,
the vertical flag is true but the body's bottom is `-1`, not `0`. -/
theorem c1_move_scenario_cex :
    (c1Map.move EPSILON c1Actor).2.2 = true ∧
    (c1Map.move EPSILON c1Actor).1.bottom ≠ 0 ∧
    (c1Map.move EPSILON c1Actor).1.bottom = -1 := by
  have h := c1_move_eval EPSILON (by norm_num [EPSILON]) (by norm_num [EPSILON])
  rw [h]
  refine ⟨rfl, ?_, ?_⟩ <;> norm_num [Actor.bottom, Actor.atPos, c1Actor]

/-- Witness for the amended C1 at the concrete sample epsilon. -/
theorem c1_move_scenario_witness :
    0 < EPSILON ∧ EPSILON < 1 ∧
    ((c1Map.move EPSILON c1Actor).2.2 = true ∧
      (c1Map.move EPSILON c1Actor).1.bottom = -1 ∧
      (c1Map.move EPSILON c1Actor).1.y = c1Actor.y ∧
      (c1Map.move EPSILON c1Actor).2.1 = false) :=
  ⟨by norm_num [EPSILON], by norm_num [EPSILON],
    c1_move_scenario EPSILON (by norm_num [EPSILON]) (by norm_num [EPSILON])⟩
